import Mathlib

/-!
Shallow embedding of the collector pipeline of the `zambia` repository
(`src/data_collectors.py`, `src/robust_collectors.py`,
`src/working_collectors.py`, `src/enhanced_collectors.py`).

Modelling conventions:
* Python dict-shaped records become association lists `List (String × JVal)`,
  with keys in the order the source writes the dict literal.
* JSON values become `JVal` (null / rational number / string); Python
  truthiness on such values is `pyTruthy`.
* Network I/O cannot be embedded, so each HTTP interaction is an oracle
  argument: `Except String r` where `.error e` models a raised exception
  with message `e` (timeouts, transport errors, `raise_for_status`,
  JSON-decode errors) and `.ok` carries the observable parsed response.
* The collector bodies, the indicator catalogs, the reference tables and
  the record-shaping loops are translated literally from the source.
* `pyLower` / `pyTitle` model Python `str.lower()` / `str.title()` on the
  ASCII strings this code base uses.
-/

set_option autoImplicit false

/-- A JSON-like value as produced by `response.json()` or stored in a
Python dict: null, number, or string. -/
inductive JVal where
  | null : JVal
  | num : Rat → JVal
  | str : String → JVal
deriving DecidableEq, Repr

/-- One output row: a Python dict, kept as an ordered association list. -/
abbrev Record := List (String × JVal)

/-- The envelope returned by every `collect_data`: either a success dict
carrying `data` and `metadata`, or a failure dict carrying `error`. -/
inductive CollectionResult where
  | ok (data : List Record) (metadata : List (String × JVal)) : CollectionResult
  | err (msg : String) : CollectionResult
deriving DecidableEq, Repr

/-- A World Bank API observation, i.e. one element of `data[1]`:
the fields the collectors read (`item['indicator']['value']`,
`item['indicator']['id']`, `item['date']`, `item['value']`,
`item['country']['value']`). -/
structure Obs where
  indicatorName : String
  indicatorId : String
  date : String
  value : JVal
  countryName : String
deriving DecidableEq, Repr

/-- Python truthiness of a `JVal`: `None`, `0` and `""` are falsy. -/
def pyTruthy : JVal → Bool
  | .null => false
  | .num q => if q = 0 then false else true
  | .str s => if s = "" then false else true

/-- Python truthiness of an optional record list (`if api_data:`):
`None` and `[]` are falsy. -/
def pyTruthyOpt : Option (List Record) → Bool
  | none => false
  | some l => !l.isEmpty

/-- Python `str.lower()` (the source only lowercases ASCII topic keys). -/
def pyLower (s : String) : String :=
  String.mk (s.data.map Char.toLower)

/-- Python `str.title()` restricted to ASCII: uppercase a letter that
follows a non-letter, lowercase a letter that follows a letter. -/
def pyTitleGo : Bool → List Char → List Char
  | _, [] => []
  | prevAlpha, c :: cs =>
    (if c.isAlpha then (if prevAlpha then c.toLower else c.toUpper) else c)
      :: pyTitleGo c.isAlpha cs

/-- Python `str.title()` on a string. -/
def pyTitle (s : String) : String :=
  String.mk (pyTitleGo false s.data)

/-- The arguments of one `session.get` call: URL, query parameters and
the `timeout=` keyword argument. -/
structure GetRequest where
  url : String
  params : List (String × JVal)
  timeout : Nat
deriving DecidableEq, Repr

/-! ## robust_collectors.py — WorldBankCollector -/

/-- The per-topic indicator map of `robust_collectors.WorldBankCollector._try_world_bank_api`. -/
def indicatorsRobust : List (String × String) :=
  [("population", "SP.POP.TOTL"),
   ("health", "SP.DYN.LE00.IN"),
   ("education", "SE.ADT.LITR.ZS"),
   ("economy", "NY.GDP.MKTP.CD"),
   ("agriculture", "AG.LND.AGRI.ZS"),
   ("mining", "NY.GDP.MINR.RT.ZS")]

/-- The GET request issued by `_try_world_bank_api` for one indicator
(`timeout=5`, `date='2022:2025'`, `per_page=20`). -/
def wbFetchRequestRobust (indicator : String) : GetRequest :=
  { url := "https://api.worldbank.org/v2/country/ZMB/indicator/" ++ indicator,
    params := [("format", .str "json"), ("date", .str "2022:2025"), ("per_page", .num 20)],
    timeout := 5 }

/-- The record `_try_world_bank_api` builds for one observation. -/
def robustApiRecordOf (o : Obs) : Record :=
  [("Indicator", .str o.indicatorName),
   ("Year", .str o.date),
   ("Value", o.value),
   ("Country", .str "Zambia"),
   ("Source", .str "World Bank API")]

/-- The observation loop of `_try_world_bank_api` over `data[1][:5]`:
`if item.get('value'):` keeps only truthy values. -/
def parseItemsRobustGo : List Obs → List Record
  | [] => []
  | o :: rest =>
    (if pyTruthy o.value then [robustApiRecordOf o] else []) ++ parseItemsRobustGo rest

/-- `_try_world_bank_api`s record extraction from `data[1]` (it slices
to the 5 most recent observations first). -/
def parseItemsRobust (items : List Obs) : List Record :=
  parseItemsRobustGo (items.take 5)

/-- The literal `base_data` table of
`robust_collectors.WorldBankCollector._get_fallback_data`,
as (topic, entries) with entries (Indicator, Value, Unit). -/
def baseDataRobust : List (String × List (String × String × String)) :=
  [("population",
    [("Total Population", "20.22 million (2025 est.)", "people"),
     ("Population Growth Rate", "2.8% annual", "percent"),
     ("Urban Population", "46.8%", "percent"),
     ("Population Density", "27 people/km²", "density")]),
   ("health",
    [("Life Expectancy", "64.3 years (2025)", "years"),
     ("Infant Mortality Rate", "36.2 per 1,000", "per 1000 births"),
     ("Maternal Mortality", "198 per 100,000", "per 100k births"),
     ("HIV Prevalence", "10.8%", "percent")]),
   ("education",
    [("Literacy Rate", "87.3%", "percent"),
     ("Primary School Enrollment", "91.2%", "percent"),
     ("Secondary School Enrollment", "47.8%", "percent"),
     ("Tertiary Enrollment", "5.4%", "percent")]),
   ("economy",
    [("GDP (nominal)", "$31.2 billion (2025)", "USD billion"),
     ("GDP per capita", "$1,544", "USD"),
     ("GDP Growth Rate", "5.2%", "percent"),
     ("Inflation Rate", "7.8%", "percent")]),
   ("agriculture",
    [("Agricultural Land", "58.1%", "percent of total"),
     ("Arable Land", "4.8%", "percent of total"),
     ("Agricultural Employment", "54.8%", "percent of workforce"),
     ("Crop Production Index", "105.2", "index")]),
   ("mining",
    [("Copper Production", "763,287 tonnes (2022)", "tonnes"),
     ("Mining GDP Share", "12.1%", "percent"),
     ("Mineral Exports", "$6.8 billion", "USD"),
     ("Mining Employment", "89,000 jobs", "jobs")])]

/-- The formatting loop at the end of `_get_fallback_data`. -/
def fallbackFormatRobust (e : String × String × String) : Record :=
  [("Indicator", .str e.1),
   ("Value", .str e.2.1),
   ("Unit", .str e.2.2),
   ("Country", .str "Zambia"),
   ("Source", .str "World Bank Reference Data"),
   ("Date", .str "2025 (Current)"),
   ("Note", .str "Current estimates - verify with official World Bank data")]

/-- `robust_collectors.WorldBankCollector._get_fallback_data`:
pure lookup `base_data.get(data_type.lower(), [])` plus formatting. -/
def getFallbackData (dataType : String) : List Record :=
  ((baseDataRobust.lookup (pyLower dataType)).getD []).map fallbackFormatRobust

/-- Metadata dict of the API-success branch of robust `collect_data`. -/
def wbApiMetaRobust : List (String × JVal) :=
  [("source", .str "World Bank API"), ("country", .str "Zambia")]

/-- Metadata dict of the scrape-success branch of robust `collect_data`. -/
def wbScrapeMetaRobust : List (String × JVal) :=
  [("source", .str "World Bank Website"), ("country", .str "Zambia")]

/-- Metadata dict of the reference-data branch of robust `collect_data`. -/
def wbRefMetaRobust : List (String × JVal) :=
  [("source", .str "World Bank Reference Data"), ("country", .str "Zambia")]

/-- `robust_collectors.WorldBankCollector.collect_data`.
The two network-dependent helpers `_try_world_bank_api` and
`_scrape_world_bank_page` are oracles (`.error e` models an exception
escaping the helper, caught by the outer `except` of `collect_data`;
`.ok` carries their return value, `None` or a record list); the
fallback helper is pure and embedded as `getFallbackData`. -/
def wbCollectRobust (dataType : String)
    (api scrape : Except String (Option (List Record))) : CollectionResult :=
  match api with
  | .error e => .err ("World Bank data collection failed: " ++ e)
  | .ok apiData =>
    if pyTruthyOpt apiData then
      .ok (apiData.getD []) wbApiMetaRobust
    else
      match scrape with
      | .error e => .err ("World Bank data collection failed: " ++ e)
      | .ok scrapedData =>
        if pyTruthyOpt scrapedData then
          .ok (scrapedData.getD []) wbScrapeMetaRobust
        else
          .ok (getFallbackData dataType) wbRefMetaRobust

/-! ## robust_collectors.py — IMFCollector fallback path -/

/-- The literal `imf_data` table of `IMFCollector._get_imf_fallback_data`,
entries are (Indicator, Value, Type). -/
def imfDataRobust : List (String × List (String × String × String)) :=
  [("economy",
    [("IMF GDP Growth Forecast", "4.2% (2024)", "Economic Growth"),
     ("IMF Inflation Projection", "8.5% (2024)", "Monetary Policy"),
     ("Current Account Balance", "-3.2% of GDP", "External Balance"),
     ("Government Debt", "132.8% of GDP", "Fiscal Policy")]),
   ("population",
    [("IMF Population Estimate", "19.6 million", "Demographics"),
     ("Labor Force", "7.2 million", "Demographics"),
     ("Unemployment Rate", "12.9%", "Labor Market")])]

/-- The formatting loop at the end of `_get_imf_fallback_data`. -/
def imfFallbackFormatRobust (e : String × String × String) : Record :=
  [("Indicator", .str e.1),
   ("Value", .str e.2.1),
   ("Type", .str e.2.2),
   ("Country", .str "Zambia"),
   ("Source", .str "IMF Reference Data"),
   ("Date", .str "2024 (IMF Estimates)"),
   ("Note", .str "Based on IMF Article IV consultation and forecasts")]

/-- `IMFCollector._get_imf_fallback_data`: note the default is the
economy table (`imf_data.get(data_type.lower(), imf_data['economy'])`). -/
def getImfFallbackData (dataType : String) : List Record :=
  ((imfDataRobust.lookup (pyLower dataType)).getD
      ((imfDataRobust.lookup "economy").getD [])).map imfFallbackFormatRobust

/-- Metadata dict of the scrape-success branch of robust IMF `collect_data`. -/
def imfMetaRobust : List (String × JVal) :=
  [("source", .str "IMF"), ("country", .str "Zambia")]

/-- Metadata dict of the reference-data branch of robust IMF `collect_data`. -/
def imfRefMetaRobust : List (String × JVal) :=
  [("source", .str "IMF Reference Data"), ("country", .str "Zambia")]

/-- `robust_collectors.IMFCollector.collect_data`, with the scraping
helper as an oracle and the pure fallback embedded. -/
def imfCollectRobust (dataType : String)
    (scrape : Except String (Option (List Record))) : CollectionResult :=
  match scrape with
  | .error e => .err ("IMF data collection failed: " ++ e)
  | .ok scrapedData =>
    if pyTruthyOpt scrapedData then
      .ok (scrapedData.getD []) imfMetaRobust
    else
      .ok (getImfFallbackData dataType) imfRefMetaRobust

/-! ## data_collectors.py — WorldBankCollector -/

/-- The `indicators_map` of `data_collectors.WorldBankCollector._get_indicators_by_type`. -/
def indicatorsMapDc : List (String × List String) :=
  [("population", ["SP.POP.TOTL", "SP.POP.GROW", "SP.URB.TOTL.IN.ZS", "SP.RUR.TOTL.ZS"]),
   ("health", ["SP.DYN.LE00.IN", "SH.DYN.MORT", "SH.STA.MMRT", "SH.IMM.MEAS"]),
   ("education", ["SE.ADT.LITR.ZS", "SE.PRM.NENR", "SE.SEC.NENR", "SE.TER.ENRR"]),
   ("economy", ["NY.GDP.MKTP.CD", "NY.GDP.PCAP.CD", "NY.GDP.MKTP.KD.ZG", "FP.CPI.TOTL.ZG"]),
   ("agriculture", ["AG.LND.AGRI.ZS", "AG.PRD.CROP.XD", "AG.LND.ARBL.ZS", "AG.YLD.CREL.KG"]),
   ("mining", ["NY.GDP.MINR.RT.ZS", "TX.VAL.MRCH.CD.WT", "EG.USE.COMM.CL.ZS"])]

/-- `data_collectors._get_indicators_by_type`:
`indicators_map.get(data_type.lower(), [])`. -/
def getIndicatorsByTypeDc (dataType : String) : List String :=
  (indicatorsMapDc.lookup (pyLower dataType)).getD []

/-- The GET request issued by `data_collectors.WorldBankCollector.collect_data`
for one indicator (`timeout=30`, `date='2010:2024'`, `per_page=100`). -/
def wbFetchRequestDc (indicator : String) : GetRequest :=
  { url := "https://api.worldbank.org/v2/countries/ZMB/indicators/" ++ indicator,
    params := [("format", .str "json"), ("date", .str "2010:2024"), ("per_page", .num 100)],
    timeout := 30 }

/-- The record the data_collectors fetch loop builds for one observation. -/
def dcRecordOf (o : Obs) : Record :=
  [("Indicator", .str o.indicatorName),
   ("Indicator_Code", .str o.indicatorId),
   ("Year", .str o.date),
   ("Value", o.value),
   ("Country", .str o.countryName),
   ("Source", .str "World Bank")]

/-- The observation loop of data_collectors `collect_data`:
`if item['value'] is not None:` keeps every non-null value. -/
def parseItemsDc : List Obs → List Record
  | [] => []
  | o :: rest =>
    (if o.value = JVal.null then [] else [dcRecordOf o]) ++ parseItemsDc rest

/-- Records contributed by one indicator of the data_collectors fetch
loop. Oracle `r`: `.error e` is any exception in the per-indicator `try`
(request failure, `raise_for_status`, JSON decode); `.ok none` is a
well-formed body failing `len(data) > 1 and data[1]`; `.ok (some items)`
is `data[1] = items`. -/
def indicatorRecordsDc (r : Except String (Option (List Obs))) : List Record :=
  match r with
  | .error _ => []
  | .ok none => []
  | .ok (some items) => parseItemsDc items

/-- The per-indicator `for` loop of data_collectors `collect_data`: a
failing indicator is caught (`except ... continue`) and the loop goes on. -/
def fetchLoopDc (resp : String → Except String (Option (List Obs))) :
    List String → List Record
  | [] => []
  | ind :: rest => indicatorRecordsDc (resp ind) ++ fetchLoopDc resp rest

/-- `data_collectors.WorldBankCollector.collect_data`: catalog lookup,
per-indicator fetch loop, then the two failure dicts or the success dict
with count metadata. -/
def wbCollectDc (dataType : String)
    (resp : String → Except String (Option (List Obs))) : CollectionResult :=
  let indicators := getIndicatorsByTypeDc dataType
  if indicators.isEmpty then
    .err ("No World Bank indicators found for data type: " ++ dataType)
  else
    let allData := fetchLoopDc resp indicators
    if allData.isEmpty then
      .err "No data retrieved from World Bank API"
    else
      .ok allData
        [("source", .str "World Bank"),
         ("country", .str "Zambia"),
         ("indicators_count", .num indicators.length),
         ("records_count", .num allData.length)]

/-! ## data_collectors.py — IMFCollector._parse_imf_content

The regular-expression engine (`re.findall`) is not embedded: the match
lists it returns are oracle inputs, and the record-shaping and slicing
applied to them is translated literally. -/

/-- The GDP-pattern loop of `_parse_imf_content` (economy branch):
`for i, gdp in enumerate(gdp_matches[:3])`. -/
def gdpRecordsDc (today : String) (gdpMatches : List String) : List Record :=
  (gdpMatches.take 3).enum.map fun p =>
    [("Indicator", .str ("GDP Related Metric " ++ Nat.repr (p.1 + 1))),
     ("Value", .str p.2),
     ("Type", .str "Economic"),
     ("Source", .str "IMF Website"),
     ("Date", .str today)]

/-- The inflation-pattern loop of `_parse_imf_content` (economy branch):
`for i, inflation in enumerate(inflation_matches[:3])`. -/
def inflationRecordsDc (today : String) (inflationMatches : List String) : List Record :=
  (inflationMatches.take 3).enum.map fun p =>
    [("Indicator", .str ("Inflation Related Metric " ++ Nat.repr (p.1 + 1))),
     ("Value", .str p.2),
     ("Type", .str "Economic"),
     ("Source", .str "IMF Website"),
     ("Date", .str today)]

/-- The general numeric-pattern loop of `_parse_imf_content` (non-economy
branch): `for i, value in enumerate(numeric_matches[:10])`. -/
def numericRecordsDc (dataType today : String) (numericMatches : List String) : List Record :=
  (numericMatches.take 10).enum.map fun p =>
    [("Indicator", .str (pyTitle dataType ++ " Metric " ++ Nat.repr (p.1 + 1))),
     ("Value", .str p.2),
     ("Type", .str (pyTitle dataType)),
     ("Source", .str "IMF Website"),
     ("Date", .str today)]

/-- `data_collectors.IMFCollector._parse_imf_content`, parameterized by
the match lists of its three `re.findall` calls and the current date. -/
def parseImfContentDc (dataType today : String)
    (gdpMatches inflationMatches numericMatches : List String) : List Record :=
  if pyLower dataType = "economy" then
    gdpRecordsDc today gdpMatches ++ inflationRecordsDc today inflationMatches
  else
    numericRecordsDc dataType today numericMatches

/-! ## working_collectors.py — WorldBankCollector -/

/-- The `indicators_map` of `working_collectors._get_indicators_by_type`
(dicts of code → display name, in insertion order). -/
def indicatorsMapWc : List (String × List (String × String)) :=
  [("population",
    [("SP.POP.TOTL", "Population, total"),
     ("SP.POP.GROW", "Population growth (annual %)"),
     ("SP.URB.TOTL.IN.ZS", "Urban population (% of total)")]),
   ("health",
    [("SP.DYN.LE00.IN", "Life expectancy at birth, total (years)"),
     ("SH.DYN.MORT", "Mortality rate, under-5 (per 1,000 live births)"),
     ("SH.STA.MMRT", "Maternal mortality ratio")]),
   ("education",
    [("SE.ADT.LITR.ZS", "Literacy rate, adult total (% of people ages 15 and above)"),
     ("SE.PRM.NENR", "School enrollment, primary (% net)"),
     ("SE.SEC.NENR", "School enrollment, secondary (% net)")]),
   ("economy",
    [("NY.GDP.MKTP.CD", "GDP (current US$)"),
     ("NY.GDP.PCAP.CD", "GDP per capita (current US$)"),
     ("NY.GDP.MKTP.KD.ZG", "GDP growth (annual %)")]),
   ("agriculture",
    [("AG.LND.AGRI.ZS", "Agricultural land (% of land area)"),
     ("AG.PRD.CROP.XD", "Crop production index"),
     ("AG.LND.ARBL.ZS", "Arable land (% of land area)")]),
   ("mining",
    [("NY.GDP.MINR.RT.ZS", "Mineral rents (% of GDP)"),
     ("TX.VAL.MRCH.CD.WT", "Merchandise exports (current US$)")])]

/-- `working_collectors._get_indicators_by_type`:
`indicators_map.get(data_type.lower(), {})`. -/
def getIndicatorsByTypeWc (dataType : String) : List (String × String) :=
  (indicatorsMapWc.lookup (pyLower dataType)).getD []

/-- The GET request issued by `working_collectors.WorldBankCollector.collect_data`
for one indicator (`timeout=15`, `date='2015:2023'`, `per_page=50`). -/
def wbFetchRequestWc (indicator : String) : GetRequest :=
  { url := "https://api.worldbank.org/v2/country/ZMB/indicator/" ++ indicator,
    params := [("format", .str "json"), ("date", .str "2015:2023"), ("per_page", .num 50)],
    timeout := 15 }

/-- The record the working_collectors fetch loop builds for one
observation (indicator name and code come from the catalog entry). -/
def wcRecordOf (code name : String) (o : Obs) : Record :=
  [("Indicator", .str name),
   ("Indicator_Code", .str code),
   ("Year", .str o.date),
   ("Value", o.value),
   ("Country", .str "Zambia"),
   ("Source", .str "World Bank")]

/-- The observation loop of working_collectors `collect_data`:
`if item.get('value') is not None:`. -/
def parseItemsWc (code name : String) : List Obs → List Record
  | [] => []
  | o :: rest =>
    (if o.value = JVal.null then [] else [wcRecordOf code name o]) ++ parseItemsWc code name rest

/-- Records contributed by one catalog entry of the working_collectors
fetch loop. Oracle: `.error e` is an exception (request failure or JSON
decode error, both caught and skipped); `.ok none` is a non-200 status
or a body failing `len(data) > 1 and data[1]`; `.ok (some items)` is
`data[1] = items`. -/
def indicatorRecordsWc (entry : String × String)
    (r : Except String (Option (List Obs))) : List Record :=
  match r with
  | .error _ => []
  | .ok none => []
  | .ok (some items) => parseItemsWc entry.1 entry.2 items

/-- The per-indicator `for` loop of working_collectors `collect_data`. -/
def fetchLoopWc (resp : String → Except String (Option (List Obs))) :
    List (String × String) → List Record
  | [] => []
  | entry :: rest => indicatorRecordsWc entry (resp entry.1) ++ fetchLoopWc resp rest

/-- The placeholder record working_collectors substitutes when the API
produced zero records (`datetime.now().year` is the `year` parameter). -/
def wcPlaceholderRecord (dataType : String) (year : Nat) : Record :=
  [("Indicator", .str (pyTitle dataType ++ " Data")),
   ("Value", .str "API connection issue - please check World Bank API availability"),
   ("Year", .num year),
   ("Country", .str "Zambia"),
   ("Source", .str "World Bank (Connection Error)")]

/-- `working_collectors.WorldBankCollector.collect_data`: catalog lookup,
fetch loop, empty-result substitution by a placeholder record, success
dict with count metadata. -/
def wbCollectWc (dataType : String) (year : Nat)
    (resp : String → Except String (Option (List Obs))) : CollectionResult :=
  let indicators := getIndicatorsByTypeWc dataType
  if indicators.isEmpty then
    .err ("No World Bank indicators found for data type: " ++ dataType)
  else
    let fetched := fetchLoopWc resp indicators
    let allData := if fetched.isEmpty then [wcPlaceholderRecord dataType year] else fetched
    .ok allData
      [("source", .str "World Bank"),
       ("country", .str "Zambia"),
       ("records_count", .num allData.length)]

/-- One free-text pattern loop of `working_collectors.IMFCollector.collect_data`:
`for j, match in enumerate(matches[:2])` with the pattern's indicator
type name (`GDP`, `Inflation`, `Growth` or `Debt`). -/
def imfPatternRecordsWc (dataType today tyName : String) (ms : List String) : List Record :=
  (ms.take 2).enum.map fun p =>
    [("Indicator", .str (tyName ++ " Related Metric " ++ Nat.repr (p.1 + 1))),
     ("Value", .str p.2),
     ("Type", .str (pyTitle dataType)),
     ("Source", .str "IMF Website"),
     ("Country", .str "Zambia"),
     ("Date", .str today)]

/-! ## enhanced_collectors.py — WorldBankCollector -/

/-- The `indicators` map of `enhanced_collectors._get_2025_indicators`. -/
def indicatorsMapEnh : List (String × List (String × String)) :=
  [("population",
    [("SP.POP.TOTL", "Population, total"),
     ("SP.POP.GROW", "Population growth (annual %)"),
     ("SP.URB.TOTL.IN.ZS", "Urban population (% of total)"),
     ("SP.RUR.TOTL.ZS", "Rural population (% of total)"),
     ("SP.POP.DPND", "Age dependency ratio (% of working-age population)")]),
   ("health",
    [("SP.DYN.LE00.IN", "Life expectancy at birth, total (years)"),
     ("SH.DYN.MORT", "Mortality rate, under-5 (per 1,000 live births)"),
     ("SH.STA.MMRT", "Maternal mortality ratio"),
     ("SH.IMM.MEAS", "Immunization, measles (% of children ages 12-23 months)"),
     ("SH.STA.MALN.ZS", "Prevalence of stunting, height for age (% of children under 5)")]),
   ("education",
    [("SE.ADT.LITR.ZS", "Literacy rate, adult total (% of people ages 15 and above)"),
     ("SE.PRM.NENR", "School enrollment, primary (% net)"),
     ("SE.SEC.NENR", "School enrollment, secondary (% net)"),
     ("SE.TER.ENRR", "School enrollment, tertiary (% gross)"),
     ("SE.PRM.CMPT.ZS", "Primary completion rate, total (% of relevant age group)")]),
   ("economy",
    [("NY.GDP.MKTP.CD", "GDP (current US$)"),
     ("NY.GDP.PCAP.CD", "GDP per capita (current US$)"),
     ("NY.GDP.MKTP.KD.ZG", "GDP growth (annual %)"),
     ("FP.CPI.TOTL.ZG", "Inflation, consumer prices (annual %)"),
     ("SL.UEM.TOTL.ZS", "Unemployment, total (% of total labor force)")]),
   ("agriculture",
    [("AG.LND.AGRI.ZS", "Agricultural land (% of land area)"),
     ("AG.PRD.CROP.XD", "Crop production index (2014-2016 = 100)"),
     ("AG.LND.ARBL.ZS", "Arable land (% of land area)"),
     ("AG.YLD.CREL.KG", "Cereal yield (kg per hectare)"),
     ("AG.CON.FERT.ZS", "Fertilizer consumption (kilograms per hectare of arable land)")]),
   ("mining",
    [("NY.GDP.MINR.RT.ZS", "Mineral rents (% of GDP)"),
     ("TX.VAL.MRCH.CD.WT", "Merchandise exports (current US$)"),
     ("TM.VAL.MRCH.CD.WT", "Merchandise imports (current US$)"),
     ("NE.EXP.GNFS.ZS", "Exports of goods and services (% of GDP)")])]

/-- `enhanced_collectors._get_2025_indicators`: note the default is the
economy map (`indicators.get(data_type.lower(), indicators['economy'])`). -/
def get2025IndicatorsEnh (dataType : String) : List (String × String) :=
  (indicatorsMapEnh.lookup (pyLower dataType)).getD
    ((indicatorsMapEnh.lookup "economy").getD [])

/-- The primary GET request of `_fetch_from_multiple_apis`
(`timeout=8`, `date='2024:2025'`, `per_page=10`). -/
def wbFetchRequestEnhPrimary (indicator : String) : GetRequest :=
  { url := "https://api.worldbank.org/v2/country/ZMB/indicator/" ++ indicator,
    params := [("format", .str "json"), ("date", .str "2024:2025"), ("per_page", .num 10)],
    timeout := 8 }

/-- The alternative-endpoint GET request of `_fetch_from_multiple_apis`
(`timeout=5`, `date='2025'`, `per_page=5`). -/
def wbFetchRequestEnhAlt (indicator : String) : GetRequest :=
  { url := "https://api.worldbank.org/v2/countries/ZMB/indicators/" ++ indicator,
    params := [("format", .str "json"), ("date", .str "2025"), ("per_page", .num 5)],
    timeout := 5 }

/-- The record the enhanced primary-endpoint loop builds for one
observation. -/
def enhRecordOf (name : String) (o : Obs) : Record :=
  [("Indicator", .str name),
   ("Year", .str o.date),
   ("Value", o.value),
   ("Country", .str "Zambia"),
   ("Source", .str "World Bank API")]

/-- The record the enhanced alternative-endpoint loop builds for one
observation (`'(Latest)'` suffix, source `World Bank API v2`). -/
def enhAltRecordOf (name : String) (o : Obs) : Record :=
  [("Indicator", .str (name ++ " (Latest)")),
   ("Year", .str o.date),
   ("Value", o.value),
   ("Country", .str "Zambia"),
   ("Source", .str "World Bank API v2")]

/-- The primary-endpoint observation loop of `_fetch_from_multiple_apis`:
`if item.get('value'):` keeps only truthy values. -/
def parseItemsEnh (name : String) : List Obs → List Record
  | [] => []
  | o :: rest =>
    (if pyTruthy o.value then [enhRecordOf name o] else []) ++ parseItemsEnh name rest

/-- The alternative-endpoint observation loop of `_fetch_from_multiple_apis`. -/
def parseItemsEnhAlt (name : String) : List Obs → List Record
  | [] => []
  | o :: rest =>
    (if pyTruthy o.value then [enhAltRecordOf name o] else []) ++ parseItemsEnhAlt name rest

/-- Records contributed by one catalog entry of `_fetch_from_multiple_apis`:
both endpoint requests sit in one per-indicator `try`, so an exception in
the primary request aborts the whole entry, while an exception in the
alternative request keeps the records the primary request already
appended. `.ok none` again models a non-200 status or a body failing
`len(data) > 1 and data[1]`. -/
def indicatorRecordsEnh (name : String)
    (r1 r2 : Except String (Option (List Obs))) : List Record :=
  match r1 with
  | .error _ => []
  | .ok o1 =>
    (match o1 with
     | none => []
     | some items => parseItemsEnh name items) ++
    (match r2 with
     | .error _ => []
     | .ok none => []
     | .ok (some items) => parseItemsEnhAlt name items)

/-- The per-entry `for` loop of `enhanced_collectors._fetch_from_multiple_apis`
(oracles `r1`, `r2` give each indicator code its primary and alternative
endpoint responses). -/
def fetchLoopEnh (r1 r2 : String → Except String (Option (List Obs))) :
    List (String × String) → List Record
  | [] => []
  | entry :: rest =>
    indicatorRecordsEnh entry.2 (r1 entry.1) (r2 entry.1) ++ fetchLoopEnh r1 r2 rest

/-! ## Result projections and helper lemmas -/

/-- The `success` flag of a returned dict. -/
def resultSuccess : CollectionResult → Bool
  | .ok _ _ => true
  | .err _ => false

/-- The `data` list of a returned dict (empty on failure dicts, which
carry no `data` key). -/
def resultData : CollectionResult → List Record
  | .ok d _ => d
  | .err _ => []

/-- A result is well formed when a failure carries a non-empty message. -/
def resultWellFormed : CollectionResult → Prop
  | .ok _ _ => True
  | .err m => m ≠ ""

theorem str_append_ne_empty (s t : String) (h : s.data ≠ []) : s ++ t ≠ "" := by
  intro hc
  apply h
  have h2 := congrArg String.data hc
  simp [String.data_append] at h2
  exact h2.1

theorem lookupNone {β : Type} (a : String) (l : List (String × β)) (h : a ∉ l.map Prod.fst) :
    l.lookup a = none := by
  induction l with
  | nil => rfl
  | cons p rest ih =>
    simp only [List.map_cons, List.mem_cons, not_or] at h
    obtain ⟨h1, h2⟩ := h
    have hb : (a == p.1) = false := beq_eq_false_iff_ne.mpr h1
    simp [List.lookup, hb, ih h2]

theorem fetchLoopDc_append (resp : String → Except String (Option (List Obs)))
    (l1 l2 : List String) :
    fetchLoopDc resp (l1 ++ l2) = fetchLoopDc resp l1 ++ fetchLoopDc resp l2 := by
  induction l1 with
  | nil => rfl
  | cons ind rest ih => simp [fetchLoopDc, ih]

theorem fetchLoopEnh_append (r1 r2 : String → Except String (Option (List Obs)))
    (l1 l2 : List (String × String)) :
    fetchLoopEnh r1 r2 (l1 ++ l2) = fetchLoopEnh r1 r2 l1 ++ fetchLoopEnh r1 r2 l2 := by
  induction l1 with
  | nil => rfl
  | cons entry rest ih => simp [fetchLoopEnh, ih]

/-! ## Claims -/

/-- Claim C1: for every topic string, `collect_data` on the collectors is a
total function whose every outcome is a well-formed `CollectionResult`: in
the robust variant an exception escaping a strategy helper is caught at
the collector boundary and converted into a failure dict with a non-empty
error message, and in the data_collectors variant every failure path
likewise yields a failure dict with a non-empty message. -/
theorem collect_data_total_boundary (dt : String)
    (api scrape : Except String (Option (List Record)))
    (resp : String → Except String (Option (List Obs))) (e : String) :
    resultWellFormed (wbCollectRobust dt api scrape) ∧
    resultWellFormed (wbCollectDc dt resp) ∧
    wbCollectRobust dt (Except.error e) scrape
      = CollectionResult.err ("World Bank data collection failed: " ++ e) := by
  refine ⟨?_, ?_, rfl⟩
  · match api with
    | .error e1 =>
      simpa [wbCollectRobust, resultWellFormed] using
        str_append_ne_empty "World Bank data collection failed: " e1 (by decide)
    | .ok apiData =>
      by_cases h1 : pyTruthyOpt apiData
      · simp [wbCollectRobust, h1, resultWellFormed]
      · match scrape with
        | .error e2 =>
          simpa [wbCollectRobust, h1, resultWellFormed] using
            str_append_ne_empty "World Bank data collection failed: " e2 (by decide)
        | .ok scrapedData =>
          by_cases h2 : pyTruthyOpt scrapedData <;>
            simp [wbCollectRobust, h1, h2, resultWellFormed]
  · unfold wbCollectDc
    by_cases h1 : (getIndicatorsByTypeDc dt).isEmpty
    · simpa [h1, resultWellFormed] using
        str_append_ne_empty "No World Bank indicators found for data type: " dt (by decide)
    · by_cases h2 : (fetchLoopDc resp (getIndicatorsByTypeDc dt)).isEmpty <;>
        simp [h1, h2, resultWellFormed]

/-- Claim C2: in the robust collector the Fetch strategy is tried first
and short-circuits: whenever the API helper returns a non-empty record
list, `collect_data` returns exactly that list (with the API metadata),
and the result does not depend on what the Scrape strategy or the
Reference Table would have produced. -/
theorem fetch_success_short_circuits (dt : String) (l : List Record)
    (scrape scrape' : Except String (Option (List Record))) (h : l ≠ []) :
    wbCollectRobust dt (Except.ok (some l)) scrape = CollectionResult.ok l wbApiMetaRobust ∧
    wbCollectRobust dt (Except.ok (some l)) scrape
      = wbCollectRobust dt (Except.ok (some l)) scrape' := by
  have hl : l.isEmpty = false := by simp [List.isEmpty_eq_false]; exact h
  constructor <;> simp [wbCollectRobust, pyTruthyOpt, hl]

theorem fetch_success_short_circuits_witness :
    wbCollectRobust "population" (Except.ok (some [[("Indicator", JVal.str "X")]]))
        (Except.ok none)
      = CollectionResult.ok [[("Indicator", JVal.str "X")]] wbApiMetaRobust ∧
    wbCollectRobust "population" (Except.ok (some [[("Indicator", JVal.str "X")]]))
        (Except.ok none)
      = wbCollectRobust "population" (Except.ok (some [[("Indicator", JVal.str "X")]]))
          (Except.error "scrape crashed") :=
  fetch_success_short_circuits "population" [[("Indicator", JVal.str "X")]]
    (Except.ok none) (Except.error "scrape crashed") (by decide)

/-- Claim C3 counterexample: `"tourism"` has no entry in the reference
table (`_get_fallback_data` returns `[]`), and with Fetch and Scrape both
producing no records the robust `collect_data` returns a SUCCESS dict
with an empty data list — not the failure dict with an explanatory
message that the claim requires. -/
theorem unknown_topic_success_empty_data :
    getFallbackData "tourism" = [] ∧
    wbCollectRobust "tourism" (Except.ok none) (Except.ok none)
      = CollectionResult.ok [] wbRefMetaRobust ∧
    resultSuccess (wbCollectRobust "tourism" (Except.ok none) (Except.ok none)) = true := by
  refine ⟨by decide, by decide, by decide⟩

/-- Claim C3 amended: for a topic with no Reference Table entry, when the
Fetch and Scrape strategies both produce no records, the robust
`collect_data` returns a success dict whose data list is empty (tagged
with the reference-data metadata), rather than a failure result. -/
theorem exhausted_topic_returns_empty_success (dt : String)
    (h : getFallbackData dt = []) :
    wbCollectRobust dt (Except.ok none) (Except.ok none)
      = CollectionResult.ok [] wbRefMetaRobust := by
  simp [wbCollectRobust, pyTruthyOpt, h]

theorem exhausted_topic_returns_empty_success_witness :
    wbCollectRobust "infrastructure" (Except.ok none) (Except.ok none)
      = CollectionResult.ok [] wbRefMetaRobust :=
  exhausted_topic_returns_empty_success "infrastructure" (by decide)

/-- Claim C9: the forced-fallback path is a pure function of the topic —
the reference tables are static literals and the fallback formatting
references no clock or mutable state — so two consecutive
reference-only calls return the same `CollectionResult`, and in
particular identical record lists (order and content): both equal the
static table lookup for that topic. -/
theorem reference_only_calls_idempotent (dt : String) :
    wbCollectRobust dt (Except.ok none) (Except.ok none)
      = wbCollectRobust dt (Except.ok none) (Except.ok none) ∧
    imfCollectRobust dt (Except.ok none) = imfCollectRobust dt (Except.ok none) ∧
    wbCollectRobust dt (Except.ok none) (Except.ok none)
      = CollectionResult.ok (getFallbackData dt) wbRefMetaRobust ∧
    imfCollectRobust dt (Except.ok none)
      = CollectionResult.ok (getImfFallbackData dt) imfRefMetaRobust := by
  refine ⟨rfl, rfl, ?_, ?_⟩ <;> simp [wbCollectRobust, imfCollectRobust, pyTruthyOpt]

/-- Claim C4 counterexample: in enhanced_collectors the catalog lookup
for the unknown topic `"tourism"` does NOT yield an empty mapping — it
yields the economy topic's indicator set (the dict-lookup default is
`indicators['economy']`). -/
theorem enh_unknown_topic_yields_economy :
    get2025IndicatorsEnh "tourism" ≠ [] ∧
    get2025IndicatorsEnh "tourism" = get2025IndicatorsEnh "economy" := by
  constructor <;> decide

/-- Claim C4 amended: catalog lookup is case-insensitive in all three
variants (topics equal after lowercasing look up the same entry); a
topic absent from the catalog yields an empty mapping in
data_collectors and working_collectors, but in enhanced_collectors it
yields the economy topic's (non-empty) indicator set. -/
theorem catalog_lookup_amended (s t : String) :
    (pyLower s = pyLower t →
      getIndicatorsByTypeDc s = getIndicatorsByTypeDc t ∧
      getIndicatorsByTypeWc s = getIndicatorsByTypeWc t ∧
      get2025IndicatorsEnh s = get2025IndicatorsEnh t) ∧
    (pyLower s ∉ indicatorsMapDc.map Prod.fst → getIndicatorsByTypeDc s = []) ∧
    (pyLower s ∉ indicatorsMapWc.map Prod.fst → getIndicatorsByTypeWc s = []) ∧
    (pyLower s ∉ indicatorsMapEnh.map Prod.fst →
      get2025IndicatorsEnh s = get2025IndicatorsEnh "economy" ∧
      get2025IndicatorsEnh s ≠ []) := by
  refine ⟨?_, ?_, ?_, ?_⟩
  · intro h
    unfold getIndicatorsByTypeDc getIndicatorsByTypeWc get2025IndicatorsEnh
    rw [h]
    exact ⟨rfl, rfl, rfl⟩
  · intro h
    unfold getIndicatorsByTypeDc
    rw [lookupNone _ _ h]
    rfl
  · intro h
    unfold getIndicatorsByTypeWc
    rw [lookupNone _ _ h]
    rfl
  · intro h
    unfold get2025IndicatorsEnh
    rw [lookupNone _ _ h]
    constructor <;> decide

theorem catalog_lookup_amended_witness :
    (getIndicatorsByTypeDc "Tourism" = getIndicatorsByTypeDc "TOURISM" ∧
     getIndicatorsByTypeWc "Tourism" = getIndicatorsByTypeWc "TOURISM" ∧
     get2025IndicatorsEnh "Tourism" = get2025IndicatorsEnh "TOURISM") ∧
    getIndicatorsByTypeDc "Tourism" = [] ∧
    getIndicatorsByTypeWc "Tourism" = [] ∧
    (get2025IndicatorsEnh "Tourism" = get2025IndicatorsEnh "economy" ∧
     get2025IndicatorsEnh "Tourism" ≠ []) := by
  have h := catalog_lookup_amended "Tourism" "TOURISM"
  exact ⟨h.1 (by decide), h.2.1 (by decide), h.2.2.1 (by decide), h.2.2.2 (by decide)⟩

theorem parseItemsDc_filter (items : List Obs) :
    parseItemsDc items = (items.filter fun o => o.value ≠ JVal.null).map dcRecordOf := by
  induction items with
  | nil => rfl
  | cons o rest ih =>
    by_cases h : o.value = JVal.null <;> simp [parseItemsDc, List.filter_cons, h, ih]

theorem parseItemsRobustGo_filter (items : List Obs) :
    parseItemsRobustGo items
      = (items.filter fun o => pyTruthy o.value).map robustApiRecordOf := by
  induction items with
  | nil => rfl
  | cons o rest ih =>
    by_cases h : pyTruthy o.value <;> simp [parseItemsRobustGo, List.filter_cons, h, ih]

theorem parseItemsEnh_filter (name : String) (items : List Obs) :
    parseItemsEnh name items
      = (items.filter fun o => pyTruthy o.value).map (enhRecordOf name) := by
  induction items with
  | nil => rfl
  | cons o rest ih =>
    by_cases h : pyTruthy o.value <;> simp [parseItemsEnh, List.filter_cons, h, ih]

/-- Claim C5 counterexample: an observation whose value is the number 0
is non-null, yet the robust and enhanced fetch parsers skip it (their
guard is Python truthiness, `if item.get('value'):`), so it is NOT
emitted as a Record. -/
theorem robust_fetch_drops_zero_value :
    (Obs.mk "Population, total" "SP.POP.TOTL" "2023" (JVal.num 0) "Zambia").value
      ≠ JVal.null ∧
    parseItemsRobust
      [Obs.mk "Population, total" "SP.POP.TOTL" "2023" (JVal.num 0) "Zambia"] = [] ∧
    parseItemsEnh "Population, total"
      [Obs.mk "Population, total" "SP.POP.TOTL" "2023" (JVal.num 0) "Zambia"] = [] := by
  refine ⟨by decide, by decide, by decide⟩

/-- Claim C5 amended: the data_collectors fetch parser emits one Record
per observation with a non-null value (so 0 is emitted, only null is
skipped); but the robust and enhanced fetch parsers keep only
observations with a Python-truthy value — 0 (and the empty string) are
skipped there too — and the robust parser additionally considers only
the first five observations. -/
theorem fetch_null_filter_amended (items : List Obs) (name : String) :
    parseItemsDc items = (items.filter fun o => o.value ≠ JVal.null).map dcRecordOf ∧
    parseItemsRobust items
      = ((items.take 5).filter fun o => pyTruthy o.value).map robustApiRecordOf ∧
    parseItemsEnh name items
      = (items.filter fun o => pyTruthy o.value).map (enhRecordOf name) ∧
    pyTruthy (JVal.num 0) = false ∧ JVal.num 0 ≠ JVal.null := by
  refine ⟨parseItemsDc_filter items, ?_, parseItemsEnh_filter name items, by decide, by decide⟩
  unfold parseItemsRobust
  exact parseItemsRobustGo_filter (items.take 5)

/-- Claim C6: a failing indicator inside one Fetch attempt is caught and
skipped — in the data_collectors loop and the enhanced loop alike, an
indicator whose request raises contributes nothing while the records of
all surrounding indicators are still produced, so the attempt as a whole
is not aborted. -/
theorem per_indicator_failure_skipped
    (resp r1 r2 : String → Except String (Option (List Obs)))
    (pre post : List String) (entriesPre entriesPost : List (String × String))
    (bad name e1 e2 : String)
    (hdc : resp bad = Except.error e1)
    (henh : r1 bad = Except.error e2) :
    fetchLoopDc resp (pre ++ bad :: post)
      = fetchLoopDc resp pre ++ fetchLoopDc resp post ∧
    fetchLoopEnh r1 r2 (entriesPre ++ (bad, name) :: entriesPost)
      = fetchLoopEnh r1 r2 entriesPre ++ fetchLoopEnh r1 r2 entriesPost := by
  constructor
  · rw [fetchLoopDc_append]
    simp [fetchLoopDc, indicatorRecordsDc, hdc]
  · rw [fetchLoopEnh_append]
    simp [fetchLoopEnh, indicatorRecordsEnh, henh]

/-- An oracle for the witness: the indicator `SH.DYN.MORT` times out,
every other indicator responds with one observation. -/
def respFailMort : String → Except String (Option (List Obs)) :=
  fun i =>
    if i = "SH.DYN.MORT" then Except.error "timeout"
    else Except.ok (some [Obs.mk "Life expectancy at birth, total (years)"
      "SP.DYN.LE00.IN" "2022" (JVal.num 62) "Zambia"])

theorem per_indicator_failure_skipped_witness :
    fetchLoopDc respFailMort (["SP.DYN.LE00.IN"] ++ "SH.DYN.MORT" :: ["SH.STA.MMRT"])
      = fetchLoopDc respFailMort ["SP.DYN.LE00.IN"]
        ++ fetchLoopDc respFailMort ["SH.STA.MMRT"] ∧
    fetchLoopEnh respFailMort respFailMort
        ([("SP.DYN.LE00.IN", "Life expectancy at birth, total (years)")]
          ++ ("SH.DYN.MORT", "Mortality rate, under-5 (per 1,000 live births)") :: [])
      = fetchLoopEnh respFailMort respFailMort
          [("SP.DYN.LE00.IN", "Life expectancy at birth, total (years)")]
        ++ fetchLoopEnh respFailMort respFailMort [] :=
  per_indicator_failure_skipped respFailMort respFailMort respFailMort
    ["SP.DYN.LE00.IN"] ["SH.STA.MMRT"]
    [("SP.DYN.LE00.IN", "Life expectancy at birth, total (years)")] []
    "SH.DYN.MORT" "Mortality rate, under-5 (per 1,000 live births)"
    "timeout" "timeout" rfl rfl

/-- Claim C7 counterexample: the fetch GET of data_collectors is issued
with `timeout=30`, which exceeds the 15-unit bound the claim states for
every fetch request. -/
theorem dc_fetch_timeout_exceeds_bound :
    (wbFetchRequestDc "SP.POP.TOTL").timeout = 30 ∧
    ¬ (wbFetchRequestDc "SP.POP.TOTL").timeout ≤ 15 := by
  constructor <;> decide

/-- Claim C7 amended: the fetch GETs carry fixed timeouts of 30 in
data_collectors, 15 in working_collectors, 5 in robust_collectors, and
8 / 5 for the two enhanced endpoints — so all variants except
data_collectors respect the 15-unit bound. -/
theorem fetch_timeouts_amended (i : String) :
    (wbFetchRequestDc i).timeout = 30 ∧
    (wbFetchRequestWc i).timeout = 15 ∧
    (wbFetchRequestRobust i).timeout = 5 ∧
    (wbFetchRequestEnhPrimary i).timeout = 8 ∧
    (wbFetchRequestEnhAlt i).timeout = 5 :=
  ⟨rfl, rfl, rfl, rfl, rfl⟩

theorem lengthTakeEnumMap {α β : Type} (f : Nat × α → β) (k : Nat) (l : List α) :
    ((l.take k).enum.map f).length = min k l.length := by
  rw [List.length_map, List.enum_length, List.length_take]

/-- Claim C8 counterexample: in the non-economy branch of
`_parse_imf_content` the single general numeric pattern is capped at 10
matches, not 3–5: a document with six matches yields six Records from
that one pattern. -/
theorem imf_general_pattern_exceeds_cap :
    (parseImfContentDc "health" "2025-06-01" [] [] ["1", "2", "3", "4", "5", "6"]).length
      = 6 ∧
    ¬ (parseImfContentDc "health" "2025-06-01" [] [] ["1", "2", "3", "4", "5", "6"]).length
      ≤ 5 := by
  constructor <;> decide

/-- Claim C8 amended: the free-text extraction passes do cap the Records
per regex pattern, but the caps are 3 per pattern in the economy branch
of data_collectors `_parse_imf_content`, 10 for its general non-economy
pattern, and 2 per pattern in the working_collectors IMF pass — not
uniformly between 3 and 5. -/
theorem imf_pattern_caps_amended (dataType today tyName : String)
    (g infl n ms : List String) :
    (gdpRecordsDc today g).length ≤ 3 ∧
    (inflationRecordsDc today infl).length ≤ 3 ∧
    (numericRecordsDc dataType today n).length = min 10 n.length ∧
    (imfPatternRecordsWc dataType today tyName ms).length ≤ 2 := by
  refine ⟨?_, ?_, ?_, ?_⟩
  · unfold gdpRecordsDc
    rw [lengthTakeEnumMap]
    exact min_le_left _ _
  · unfold inflationRecordsDc
    rw [lengthTakeEnumMap]
    exact min_le_left _ _
  · unfold numericRecordsDc
    rw [lengthTakeEnumMap]
  · unfold imfPatternRecordsWc
    rw [lengthTakeEnumMap]
    exact min_le_left _ _

/-- Claim C10: in working_collectors, for a topic with a catalog entry,
`collect_data` returns success with a non-empty data list no matter what
the API produced: a fetch loop that yields zero records is replaced by
the single connection-issue placeholder record, so the empty outcome
never reaches the caller for a known topic. -/
theorem wc_known_topic_success_nonempty (dt : String) (year : Nat)
    (resp : String → Except String (Option (List Obs)))
    (h : getIndicatorsByTypeWc dt ≠ []) :
    resultSuccess (wbCollectWc dt year resp) = true ∧
    resultData (wbCollectWc dt year resp) ≠ [] := by
  have hne : (getIndicatorsByTypeWc dt).isEmpty = false := by
    simp [List.isEmpty_eq_false]
    exact h
  cases hf : (fetchLoopWc resp (getIndicatorsByTypeWc dt)).isEmpty with
  | true => simp [wbCollectWc, hne, hf, resultSuccess, resultData]
  | false =>
    rw [List.isEmpty_eq_false] at hf
    simp [wbCollectWc, hne, resultSuccess, resultData, hf]

/-- An oracle for the witness: every request raises a connection error. -/
def respAllDown : String → Except String (Option (List Obs)) :=
  fun _ => Except.error "connection refused"

theorem wc_known_topic_success_nonempty_witness :
    resultSuccess (wbCollectWc "mining" 2025 respAllDown) = true ∧
    resultData (wbCollectWc "mining" 2025 respAllDown) ≠ [] :=
  wc_known_topic_success_nonempty "mining" 2025 respAllDown (by decide)
